import Mathlib

/-!
Shallow embedding of the drowning-monitor core of this repository:
the motion detector and main loop of src/detection.py, the human
detector wrapper and risk heuristic of src/ai_model.py, and the alert
logging of src/database.py.  Pixels and intensities are natural
numbers, wall-clock times are exact integer instants (float rounding is
not modelled), and every fallible
external call (OpenCV, the YOLO detector, sqlite, winsound) is
threaded explicitly as an Except outcome.
-/

/-- A BGR pixel as stored by OpenCV: (blue, green, red) channel values. -/
abbrev Pixel := Nat × Nat × Nat

/-- A single-channel image: a list of rows of intensity values. -/
abbrev Mat := List (List Nat)

/-- A video frame: a 2D buffer of BGR pixels. -/
structure Frame where
  data : List (List Pixel)
deriving DecidableEq

/-- The shape of a single-channel image: row count and the length of each row. -/
def matShape (m : Mat) : Nat × List Nat := (m.length, m.map List.length)

/-- The shape of a frame. -/
def Frame.shape (f : Frame) : Nat × List Nat := (f.data.length, f.data.map List.length)

/-- OpenCV BGR-to-gray conversion of one pixel, in the fixed-point integer
arithmetic OpenCV uses: (4899 R + 9617 G + 1868 B + 8192) >> 14. -/
def grayOf : Pixel → Nat
  | (b, g, r) => (1868 * b + 9617 * g + 4899 * r + 8192) / 16384

/-- cv2.cvtColor(frame, cv2.COLOR_BGR2GRAY) from detect_motion. -/
def cvtColor (f : Frame) : Mat := f.data.map (fun row => row.map grayOf)

/-- Errors raised by the OpenCV calls inside detect_motion. -/
inductive CvError where
  | dimensionMismatch
deriving DecidableEq

/-- cv2.absdiff: absolute per-pixel difference of two single-channel
images; OpenCV raises when the two shapes differ. -/
def absdiff (a b : Mat) : Except CvError Mat :=
  if matShape a = matShape b then
    Except.ok (List.zipWith (fun ra rb => List.zipWith (fun x y => max x y - min x y) ra rb) a b)
  else
    Except.error CvError.dimensionMismatch

/-- cv2.threshold(diff, 25, 255, cv2.THRESH_BINARY): 255 where the pixel
value exceeds 25, otherwise 0. -/
def thresholdBinary (m : Mat) : Mat :=
  m.map (fun row => row.map (fun d => if 25 < d then 255 else 0))

/-- Pixel lookup with value 0 outside the image, the border handling of a
morphological dilation on a binary image. -/
def getPx (m : Mat) (i j : Int) : Nat :=
  if 0 ≤ i ∧ 0 ≤ j then (m.getD i.toNat []).getD j.toNat 0 else 0

/-- One pass of cv2.dilate with the default 3x3 rectangular kernel: each
output pixel is the maximum over its 3x3 neighbourhood. -/
def dilateOnce (m : Mat) : Mat :=
  (List.range m.length).map (fun i =>
    (List.range ((m.getD i []).length)).map (fun j =>
      (([-1, 0, 1] : List Int).map (fun di =>
        (([-1, 0, 1] : List Int).map (fun dj =>
          getPx m ((i : Int) + di) ((j : Int) + dj))).foldr max 0)).foldr max 0))

/-- cv2.dilate(thresh, None, iterations = n). -/
def dilate : Nat → Mat → Mat
  | 0, m => m
  | n + 1, m => dilate n (dilateOnce m)

/-- Models len(cv2.findContours(m, RETR_EXTERNAL, CHAIN_APPROX_SIMPLE)) > 0
on a binary image: at least one external contour exists exactly when the
image has a nonzero pixel. -/
def hasContour (m : Mat) : Bool :=
  m.any (fun row => row.any (fun p => p != 0))

/-- detect_motion from detection.py: grayscale conversion, absolute frame
difference, binary threshold, two dilation passes, then contour presence.
Returns the motion flag and the dilated thresholded image, or the uncaught
OpenCV error. -/
def detect_motion (frame1 frame2 : Frame) : Except CvError (Bool × Mat) := do
  let gray1 := cvtColor frame1
  let gray2 := cvtColor frame2
  let diff ← absdiff gray1 gray2
  let thresh := thresholdBinary diff
  let thresh2 := dilate 2 thresh
  let motion_detected := hasContour thresh2
  return (motion_detected, thresh2)

/-- analyze_drowning_risk from ai_model.py, returning the literal status
string of the source.  The status text encodes the risk level:
NO_SUBJECT is the no-human string, ACTIVE the active string, MONITORING
the monitoring string and ALERT the alert string. -/
def analyze_drowning_risk (human_present motion_detected : Bool)
    (time_without_motion : ℤ) : String :=
  if !human_present then "No human detected"
  else if motion_detected then "Active - Normal swimming"
  else if time_without_motion > 10 then "ALERT: Potential drowning - No motion detected"
  else "Monitoring - Minimal motion"

/-- Error kinds of the external person detector. -/
inductive DetectorError where
  | unavailable
  | timeout
  | malformedInput
deriving DecidableEq

/-- A detection bounding box (x, y, w, h). -/
abbrev BBox := Nat × Nat × Nat × Nat

/-- detect_humans_in_frame from ai_model.py.  The underlying detector call
on the current frame is passed in by its outcome: the detection list on
success, or the exception it raised.  The try/except of the source catches
any exception and returns count 0 with an empty detection list. -/
def detect_humans_in_frame (raw : Except DetectorError (List BBox)) : Nat × List BBox :=
  match raw with
  | Except.ok detections => (detections.length, detections)
  | Except.error _ => (0, [])

/-- A row of the alerts table of database.py.  The source renders details
as one formatted string; the status text and the elapsed seconds are kept
as separate fields here instead of modelling the float formatting. -/
structure Alert where
  alert_type : String
  status : String
  time_without_motion : ℤ
deriving DecidableEq

/-- An sqlite3 failure raised by a database call. -/
inductive SinkError where
  | sqliteError
deriving DecidableEq

/-- log_alert from database.py: inserts one row into the alerts table.
The sqlite calls have no error handling in the source, so a failing
transaction raises to the caller.  The outcome of the underlying sqlite
transaction is passed in explicitly. -/
def log_alert (db : List Alert) (a : Alert) (outcome : Except SinkError Unit) :
    Except SinkError (List Alert) :=
  match outcome with
  | Except.ok _ => Except.ok (db ++ [a])
  | Except.error e => Except.error e

/-- A winsound.Beep failure. -/
inductive BeepError where
  | beepFailed
deriving DecidableEq

instance exceptDecEq {ε α : Type} [DecidableEq ε] [DecidableEq α] :
    DecidableEq (Except ε α) := fun x y =>
  match x, y with
  | Except.ok a, Except.ok b =>
    if h : a = b then isTrue (by rw [h]) else isFalse (fun hc => h (Except.ok.inj hc))
  | Except.ok _, Except.error _ => isFalse (fun hc => Except.noConfusion hc)
  | Except.error _, Except.ok _ => isFalse (fun hc => Except.noConfusion hc)
  | Except.error e, Except.error f =>
    if h : e = f then isTrue (by rw [h]) else isFalse (fun hc => h (Except.error.inj hc))

/-- The inputs one iteration of the while loop in detection.py main
consumes: the two frames being compared, the wall-clock time during the
iteration, and the outcomes of the external calls the iteration may make
(the person detector, the sqlite insert, the beep). -/
structure FrameInput where
  frame1 : Frame
  frame2 : Frame
  now : ℤ
  detect : Except DetectorError (List BBox)
  sink : Except SinkError Unit
  beep : Except BeepError Unit
deriving DecidableEq

/-- The mutable state of detection.py main across loop iterations,
together with the alerts table and an instrumentation counter of how many
times the person detector was invoked. -/
structure LoopState where
  last_motion_time : ℤ
  frame_count : Nat
  human_present : Bool
  alerts : List Alert
  detector_calls : Nat
deriving DecidableEq

/-- The state right before the first loop iteration of main:
last_motion_time is the start time, frame_count is 0, human_present is
false, no alerts are logged. -/
def initState (t0 : ℤ) : LoopState :=
  { last_motion_time := t0, frame_count := 0, human_present := false,
    alerts := [], detector_calls := 0 }

/-- Exceptions that escape one iteration of the loop body.  Nothing in
main catches them, so they terminate the loop. -/
inductive StepError where
  | motionError (e : CvError)
  | sinkError (e : SinkError)
deriving DecidableEq

/-- Whether the first list is an initial segment of the second. -/
def leadMatch : List Char → List Char → Bool
  | [], _ => true
  | _ :: _, [] => false
  | a :: as, b :: bs => a == b && leadMatch as bs

/-- Whether the first list occurs as a contiguous sublist of the second. -/
def subMatch (pat : List Char) : List Char → Bool
  | [] => leadMatch pat []
  | b :: bs => leadMatch pat (b :: bs) || subMatch pat bs

/-- The Python membership test needle in haystack on strings. -/
def strContains (haystack needle : String) : Bool :=
  subMatch needle.toList haystack.toList

/-- One iteration of the while loop in detection.py main: increment the
frame counter, run motion detection, refresh the motion timestamp, run the
person detector on every 30th frame, compute the risk status, and insert
an alert row whenever the status contains the ALERT marker (the
winsound.Beep that follows is wrapped in a bare try/except pass in the
source, so its outcome is ignored).  Returns the updated state and the
printed status, or the exception that escaped the iteration. -/
def mainStep (st : LoopState) (inp : FrameInput) : Except StepError (LoopState × String) :=
  let frame_count := st.frame_count + 1
  match detect_motion inp.frame1 inp.frame2 with
  | Except.error e => Except.error (StepError.motionError e)
  | Except.ok (motion, _thresh) =>
    let last_motion_time := if motion then inp.now else st.last_motion_time
    let sampled := frame_count % 30 == 0
    let human_present :=
      if sampled then decide (0 < (detect_humans_in_frame inp.detect).1)
      else st.human_present
    let detector_calls := if sampled then st.detector_calls + 1 else st.detector_calls
    let time_without_motion := inp.now - last_motion_time
    let risk_status := analyze_drowning_risk human_present motion time_without_motion
    if strContains risk_status "ALERT" then
      match log_alert st.alerts
          { alert_type := "DROWNING_ALERT", status := risk_status,
            time_without_motion := time_without_motion } inp.sink with
      | Except.error e => Except.error (StepError.sinkError e)
      | Except.ok alerts =>
        Except.ok ({ last_motion_time := last_motion_time, frame_count := frame_count,
                     human_present := human_present, alerts := alerts,
                     detector_calls := detector_calls }, risk_status)
    else
      Except.ok ({ last_motion_time := last_motion_time, frame_count := frame_count,
                   human_present := human_present, alerts := st.alerts,
                   detector_calls := detector_calls }, risk_status)

/-- Runs the loop body over a list of per-frame inputs, collecting the
printed statuses in order, stopping at the first uncaught exception. -/
def mainRun (st : LoopState) : List FrameInput → Except StepError (LoopState × List String)
  | [] => Except.ok (st, [])
  | inp :: rest =>
    match mainStep st inp with
    | Except.error e => Except.error e
    | Except.ok (st1, out) =>
      match mainRun st1 rest with
      | Except.error e => Except.error e
      | Except.ok (st2, outs) => Except.ok (st2, out :: outs)

/-!
Concrete frames, inputs and states used by the closed theorems below.
-/

/-- A mid-gray pixel. -/
def pxGray : Pixel := (100, 100, 100)

/-- A 1x1 frame. -/
def frameA : Frame := ⟨[[pxGray]]⟩

/-- A 1x2 frame, dimension-mismatched with frameA. -/
def frameWide : Frame := ⟨[[pxGray, pxGray]]⟩

/-- An uneventful iteration: identical frames, time 0, an absent-human
detector result, healthy sink and beep. -/
def quietInput : FrameInput :=
  { frame1 := frameA, frame2 := frameA, now := 0, detect := Except.ok [],
    sink := Except.ok (), beep := Except.ok () }

/-- An iteration whose detector call finds one person. -/
def confirmInput : FrameInput := { quietInput with detect := Except.ok [(0, 0, 1, 1)] }

/-- An iteration whose detector call times out. -/
def timeoutInput : FrameInput := { quietInput with detect := Except.error DetectorError.timeout }

/-- An iteration at time 20 whose detector call finds one person. -/
def lateConfirmInput : FrameInput :=
  { quietInput with now := 20, detect := Except.ok [(0, 0, 1, 1)] }

/-- An uneventful iteration at time 21. -/
def lateQuietInput : FrameInput := { quietInput with now := 21 }

/-- A 31-frame run: 29 uneventful frames, then a person is confirmed at
time 20 with no motion since time 0, then one more still frame at 21. -/
def doubleAlertInputs : List FrameInput :=
  List.replicate 29 quietInput ++ [lateConfirmInput, lateQuietInput]

/-- A 60-frame run: a person is confirmed on sampled frame 30, then the
detector times out on sampled frame 60. -/
def staleRunInputs : List FrameInput :=
  List.replicate 29 quietInput ++ [confirmInput] ++ List.replicate 29 quietInput ++ [timeoutInput]

/-- A 30-frame run ending in an alert whose sqlite insert fails. -/
def sinkFailRunInputs : List FrameInput :=
  List.replicate 29 quietInput ++ [{ lateConfirmInput with sink := Except.error SinkError.sqliteError }]

/-- An iteration whose two frames have mismatched dimensions. -/
def mismatchInput : FrameInput := { quietInput with frame2 := frameWide }

/-- An uneventful iteration whose sqlite sink would fail if used. -/
def quietSinkFailInput : FrameInput := { quietInput with sink := Except.error SinkError.sqliteError }

/-- The loop state after one uneventful iteration from initState 0. -/
def quietPost : LoopState :=
  { last_motion_time := 0, frame_count := 1, human_present := false,
    alerts := [], detector_calls := 0 }

/-- A loop state about to process sampled frame 30 with a person present. -/
def stalePre : LoopState :=
  { last_motion_time := 0, frame_count := 29, human_present := true,
    alerts := [], detector_calls := 1 }

/-- The loop state after the detector times out on sampled frame 30. -/
def stalePost : LoopState :=
  { last_motion_time := 0, frame_count := 30, human_present := false,
    alerts := [], detector_calls := 2 }

/-- A single-channel image all of whose pixels are zero. -/
def IsZeroMat (m : Mat) : Prop := ∀ r ∈ m, ∀ x ∈ r, x = 0

/-!
Helper lemmas.
-/

theorem zipWith_self_eq_map {α β : Type} (f : α → α → β) (l : List α) :
    List.zipWith f l l = l.map (fun a => f a a) := by
  induction l with
  | nil => rfl
  | cons a as ih => simp [List.zipWith, ih]

theorem absdiff_self (m : Mat) :
    absdiff m m = Except.ok (m.map (fun r => r.map (fun _ => 0))) := by
  unfold absdiff
  rw [if_pos rfl]
  simp only [zipWith_self_eq_map, max_self, min_self, Nat.sub_self]

theorem zeroOf_isZero (m : Mat) : IsZeroMat (m.map (fun r => r.map (fun _ => 0))) := by
  intro r hr x hx
  simp only [List.mem_map] at hr
  obtain ⟨r0, _, rfl⟩ := hr
  simp only [List.mem_map] at hx
  obtain ⟨x0, _, hx0⟩ := hx
  exact hx0.symm

theorem thresholdBinary_zero {m : Mat} (h : IsZeroMat m) : IsZeroMat (thresholdBinary m) := by
  intro r hr x hx
  simp only [thresholdBinary, List.mem_map] at hr
  obtain ⟨r0, hr0, rfl⟩ := hr
  simp only [List.mem_map] at hx
  obtain ⟨x0, hx0, rfl⟩ := hx
  have hz := h r0 hr0 x0 hx0
  subst hz
  rfl

theorem getD_mem_or_eq {α : Type} (l : List α) (n : Nat) (d : α) :
    l.getD n d ∈ l ∨ l.getD n d = d := by
  induction l generalizing n with
  | nil => right; cases n <;> rfl
  | cons a as ih =>
    cases n with
    | zero => left; simp [List.getD_cons_zero]
    | succ k =>
      rw [List.getD_cons_succ]
      rcases ih k with h | h
      · left; exact List.mem_cons_of_mem a h
      · right; exact h

theorem getPx_zero {m : Mat} (h : IsZeroMat m) (i j : Int) : getPx m i j = 0 := by
  unfold getPx
  split
  · rcases getD_mem_or_eq m i.toNat [] with hm | he
    · rcases getD_mem_or_eq (m.getD i.toNat []) j.toNat 0 with hx | hd
      · exact h _ hm _ hx
      · exact hd
    · rw [he]; cases j.toNat <;> rfl
  · rfl

theorem foldr_max_zero {l : List Nat} (h : ∀ x ∈ l, x = 0) : l.foldr max 0 = 0 := by
  induction l with
  | nil => rfl
  | cons a as ih =>
    have ha := h a (List.mem_cons_self a as)
    have has : ∀ x ∈ as, x = 0 := fun x hx => h x (List.mem_cons_of_mem a hx)
    simp [ha, ih has]

theorem dilateOnce_zero {m : Mat} (h : IsZeroMat m) : IsZeroMat (dilateOnce m) := by
  intro r hr x hx
  simp only [dilateOnce, List.mem_map] at hr
  obtain ⟨i, _, rfl⟩ := hr
  simp only [List.mem_map] at hx
  obtain ⟨j, _, rfl⟩ := hx
  apply foldr_max_zero
  intro x hx
  simp only [List.mem_map] at hx
  obtain ⟨di, _, rfl⟩ := hx
  apply foldr_max_zero
  intro y hy
  simp only [List.mem_map] at hy
  obtain ⟨dj, _, rfl⟩ := hy
  exact getPx_zero h _ _

theorem hasContour_zero {m : Mat} (h : IsZeroMat m) : hasContour m = false := by
  unfold hasContour
  rw [List.any_eq_false]
  intro r hr
  rw [Bool.not_eq_true, List.any_eq_false]
  intro x hx
  rw [Bool.not_eq_true]
  have hz := h r hr x hx
  subst hz
  rfl

/-- Claim C7: for every pair of identical frames, detect_motion reports
motion_detected = false: the absolute difference is zero everywhere, so
after thresholding and dilation no contour of changed pixels exists. -/
theorem identical_frames_no_motion (f : Frame) :
    ∃ t, detect_motion f f = Except.ok (false, t) := by
  have h0 : IsZeroMat ((cvtColor f).map (fun r => r.map (fun _ => 0))) := zeroOf_isZero _
  have h1 := thresholdBinary_zero h0
  have h2 := dilateOnce_zero (dilateOnce_zero h1)
  have hc : hasContour
      (dilate 2 (thresholdBinary ((cvtColor f).map (fun r => r.map (fun _ => 0))))) = false :=
    hasContour_zero h2
  refine ⟨dilate 2 (thresholdBinary ((cvtColor f).map (fun r => r.map (fun _ => 0)))), ?_⟩
  unfold detect_motion
  simp only [absdiff_self, Except.bind, Except.pure, bind, pure, hc]

/-- Claim C8: whenever human_present is false, the risk analysis returns
the NO_SUBJECT status and neither the motion flag nor the elapsed time
influences the result. -/
theorem no_human_gives_no_subject (motion : Bool) (t : ℤ) :
    analyze_drowning_risk false motion t = "No human detected" := rfl

/-- Claim C3 counterexample: with a human present and no motion, at
elapsed time exactly equal to the 10-second threshold analyze_drowning_risk
returns the MONITORING status, not the ALERT status the claim requires. -/
theorem alert_threshold_boundary_cex :
    (10 : ℤ) ≥ 10 ∧
      analyze_drowning_risk true false 10 = "Monitoring - Minimal motion" ∧
      analyze_drowning_risk true false 10 ≠ "ALERT: Potential drowning - No motion detected" := by
  decide

/-- Claim C3, amended: with a human present and no motion, the risk level
is ALERT exactly when the elapsed time is strictly greater than the
10-second threshold; at elapsed time equal to the threshold the level is
still MONITORING. -/
theorem alert_iff_strictly_late (t : ℤ) :
    (analyze_drowning_risk true false t = "ALERT: Potential drowning - No motion detected")
      ↔ 10 < t := by
  show (if t > 10 then "ALERT: Potential drowning - No motion detected"
        else "Monitoring - Minimal motion") =
      "ALERT: Potential drowning - No motion detected" ↔ 10 < t
  by_cases h : t > 10
  · rw [if_pos h]
    exact ⟨fun _ => h, fun _ => rfl⟩
  · rw [if_neg h]
    constructor
    · intro habs
      exact absurd habs (by decide)
    · intro hlt
      exact absurd hlt h

/-- Claim C9: detect_humans_in_frame is total at its interface: whatever
the underlying detector raised, it returns count 0 with an empty detection
list, which is exactly what a successful call reporting no detections
returns, and the monitor loop step behaves identically on a failed call
and on a successful empty one. -/
theorem detect_humans_total_fail_silent (e : DetectorError) (st : LoopState) (inp : FrameInput) :
    detect_humans_in_frame (Except.error e) = (0, []) ∧
      detect_humans_in_frame (Except.error e) = detect_humans_in_frame (Except.ok []) ∧
      mainStep st { inp with detect := Except.error e } =
        mainStep st { inp with detect := Except.ok [] } :=
  ⟨rfl, rfl, rfl⟩

/-- The status containing the ALERT marker is detected as such, and the
other three statuses are not. -/
theorem strContains_status_alert :
    strContains "ALERT: Potential drowning - No motion detected" "ALERT" = true ∧
      strContains "No human detected" "ALERT" = false ∧
      strContains "Active - Normal swimming" "ALERT" = false ∧
      strContains "Monitoring - Minimal motion" "ALERT" = false := by
  decide

set_option maxRecDepth 40000 in
/-- Claim C2 counterexample: a 60-frame run in which a person is confirmed
on sampled frame 30 and the detector times out on sampled frame 60.  The
timeout does not leave human_present at its previous value true: the state
ends with human_present = false and frame 60 reports the NO_SUBJECT
status, contradicting the claim. -/
theorem detector_failure_clears_presence_cex :
    mainRun (initState 0) staleRunInputs =
      Except.ok ({ last_motion_time := 0, frame_count := 60, human_present := false,
                   alerts := [], detector_calls := 2 },
        List.replicate 29 "No human detected" ++ List.replicate 30 "Monitoring - Minimal motion"
          ++ ["No human detected"]) := by
  decide

/-- Claim C2, amended: when the detector fails on a sampled frame, the
stored presence state is not kept: the loop overwrites human_present with
false (a failure is indistinguishable from an absence report), and that
frame reports the NO_SUBJECT status. -/
theorem detector_failure_reports_no_subject (st : LoopState) (inp : FrameInput)
    (e : DetectorError) (st2 : LoopState) (out : String)
    (hsamp : (st.frame_count + 1) % 30 = 0) (hdet : inp.detect = Except.error e)
    (hstep : mainStep st inp = Except.ok (st2, out)) :
    st2.human_present = false ∧ out = "No human detected" := by
  unfold mainStep at hstep
  rcases hmot : detect_motion inp.frame1 inp.frame2 with em | pr
  · rw [hmot] at hstep
    exact absurd hstep (by simp)
  · rw [hmot] at hstep
    obtain ⟨motion, th⟩ := pr
    simp only [hsamp, hdet, detect_humans_in_frame, analyze_drowning_risk] at hstep
    simp [strContains_status_alert.2.1] at hstep
    obtain ⟨h1, h2⟩ := hstep
    subst h1
    subst h2
    exact ⟨rfl, rfl⟩

/-- Witness for claim C2: the amended theorem applied to sampled frame 30
with a timed-out detector from a state where a person was present. -/
theorem detector_failure_reports_no_subject_witness :
    stalePost.human_present = false ∧ "No human detected" = "No human detected" :=
  detector_failure_reports_no_subject stalePre timeoutInput DetectorError.timeout stalePost
    "No human detected" (by decide) (by decide) (by decide)

/-- Grayscale conversion preserves the shape of a frame. -/
theorem matShape_cvtColor (f : Frame) : matShape (cvtColor f) = f.shape := by
  simp [matShape, cvtColor, Frame.shape, List.map_map, Function.comp]

/-- Claim C6 counterexample: a 2-frame run whose first frame pair has
mismatched dimensions terminates with the uncaught OpenCV error and never
processes the second frame, contradicting the claim that the loop logs,
skips to the next frame and never aborts. -/
theorem dimension_mismatch_aborts_cex :
    mainRun (initState 0) [mismatchInput, quietInput] =
      Except.error (StepError.motionError CvError.dimensionMismatch) := by
  decide

/-- Claim C6, amended: on frames of mismatched dimensions detect_motion
fails with the dimension-mismatch error, and the monitor loop does not
catch it: the error propagates out of the loop body and terminates the
whole run at that frame. -/
theorem dimension_mismatch_propagates (st : LoopState) (inp : FrameInput)
    (h : inp.frame1.shape ≠ inp.frame2.shape) :
    detect_motion inp.frame1 inp.frame2 = Except.error CvError.dimensionMismatch ∧
      mainStep st inp = Except.error (StepError.motionError CvError.dimensionMismatch) ∧
      ∀ rest, mainRun st (inp :: rest) =
        Except.error (StepError.motionError CvError.dimensionMismatch) := by
  have hd : detect_motion inp.frame1 inp.frame2 = Except.error CvError.dimensionMismatch := by
    unfold detect_motion absdiff
    simp only [matShape_cvtColor, if_neg h, Except.bind, bind]
  have hs : mainStep st inp = Except.error (StepError.motionError CvError.dimensionMismatch) := by
    unfold mainStep
    rw [hd]
  exact ⟨hd, hs, fun rest => by unfold mainRun; rw [hs]⟩

/-- Witness for claim C6: the amended theorem applied to a 1x1 frame and a
1x2 frame. -/
theorem dimension_mismatch_propagates_witness :
    detect_motion frameA frameWide = Except.error CvError.dimensionMismatch ∧
      mainStep (initState 0) mismatchInput =
        Except.error (StepError.motionError CvError.dimensionMismatch) :=
  ⟨(dimension_mismatch_propagates (initState 0) mismatchInput (by decide)).1,
   (dimension_mismatch_propagates (initState 0) mismatchInput (by decide)).2.1⟩

set_option maxRecDepth 40000 in
/-- Claim C5 counterexample: a 30-frame run from the initial state whose
frame 30 is an ALERT frame with a failing sqlite insert terminates with
the uncaught sink error: persistence failure is escalated straight to the
monitor loop's control flow, with no retry and no dropped-alert warning. -/
theorem sink_failure_escalates_cex :
    mainRun (initState 0) sinkFailRunInputs =
      Except.error (StepError.sinkError SinkError.sqliteError) := by
  decide

/-- Claim C5, amended: the two failure channels are handled differently
and neither is retried.  The notification (beep) outcome is entirely
ignored by the loop body, so a notification failure can never affect the
loop.  The sqlite insert has no handler at all: with a failing sink, an
iteration either terminates the loop with the sink error or, when it
succeeded, did not need the sink — its status was not an ALERT and the
alerts table is unchanged. -/
theorem sink_beep_failure_handling (st : LoopState) (inp : FrameInput)
    (b : Except BeepError Unit) (e : SinkError) (hsink : inp.sink = Except.error e) :
    mainStep st { inp with beep := b } = mainStep st inp ∧
      ∀ st2 out, mainStep st inp = Except.ok (st2, out) →
        st2.alerts = st.alerts ∧ strContains out "ALERT" = false := by
  constructor
  · rfl
  · intro st2 out hstep
    unfold mainStep at hstep
    rcases hmot : detect_motion inp.frame1 inp.frame2 with em | pr
    · rw [hmot] at hstep
      exact absurd hstep (by simp)
    · rw [hmot] at hstep
      obtain ⟨motion, th⟩ := pr
      rw [hsink] at hstep
      simp only [log_alert] at hstep
      split at hstep <;> split at hstep <;> split at hstep
      all_goals try exact Except.noConfusion hstep
      all_goals
        (simp only [Except.ok.injEq, Prod.mk.injEq] at hstep
         obtain ⟨h1, h2⟩ := hstep
         subst h1
         subst h2
         rename_i hcond
         exact ⟨rfl, by simpa using hcond⟩)

/-- Witness for claim C5: a failing sink on an uneventful frame, with a
failing beep on top: the step is unaffected by the beep outcome, succeeds,
appends nothing and reports a non-alert status. -/
theorem sink_beep_failure_handling_witness :
    mainStep (initState 0) { quietSinkFailInput with beep := Except.error BeepError.beepFailed } =
        mainStep (initState 0) quietSinkFailInput ∧
      quietPost.alerts = (initState 0).alerts ∧
        strContains "No human detected" "ALERT" = false :=
  ⟨(sink_beep_failure_handling (initState 0) quietSinkFailInput
      (Except.error BeepError.beepFailed) SinkError.sqliteError (by decide)).1,
   (sink_beep_failure_handling (initState 0) quietSinkFailInput
      (Except.error BeepError.beepFailed) SinkError.sqliteError (by decide)).2
      quietPost "No human detected" (by decide)⟩

/-- One loop iteration appends exactly one alert row when the printed
status carries the ALERT marker and none otherwise. -/
theorem mainStep_alerts (st : LoopState) (inp : FrameInput) (st2 : LoopState) (out : String)
    (h : mainStep st inp = Except.ok (st2, out)) :
    st2.alerts.length = st.alerts.length + (if strContains out "ALERT" = true then 1 else 0) := by
  unfold mainStep at h
  rcases hmot : detect_motion inp.frame1 inp.frame2 with em | pr
  · rw [hmot] at h
    exact Except.noConfusion h
  · rw [hmot] at h
    obtain ⟨motion, th⟩ := pr
    rcases hsink : inp.sink with u | es <;> rw [hsink] at h <;>
      simp only [log_alert] at h <;>
        split at h <;> split at h <;> split at h
    all_goals try exact Except.noConfusion h
    all_goals
      (simp only [Except.ok.injEq, Prod.mk.injEq] at h
       obtain ⟨h1, h2⟩ := h
       subst h1
       subst h2
       rename_i hcond
       simp at hcond ⊢
       simp [hcond])

/-- Claim C1, amended: alert emission is level-triggered, not
edge-triggered.  Over any successful run, the number of alert rows grows
by exactly the number of frames whose printed status carries the ALERT
marker: an unbroken ALERT episode of k frames appends k alerts, with no
deduplication of a sustained episode. -/
theorem alerts_level_triggered (st : LoopState) (L : List FrameInput) (st2 : LoopState)
    (outs : List String) (h : mainRun st L = Except.ok (st2, outs)) :
    st2.alerts.length = st.alerts.length + outs.countP (fun s => strContains s "ALERT") := by
  induction L generalizing st outs with
  | nil =>
    unfold mainRun at h
    simp only [Except.ok.injEq, Prod.mk.injEq] at h
    obtain ⟨h1, h2⟩ := h
    subst h1
    subst h2
    simp
  | cons inp rest ih =>
    unfold mainRun at h
    rcases hstep : mainStep st inp with e1 | pr1
    · rw [hstep] at h
      exact Except.noConfusion h
    · rw [hstep] at h
      obtain ⟨st1, out⟩ := pr1
      have hr : (match mainRun st1 rest with
          | Except.error e => Except.error e
          | Except.ok (stX, outsX) => Except.ok (stX, out :: outsX)) =
            Except.ok (st2, outs) := h
      rcases hrun : mainRun st1 rest with e2 | pr2
      · rw [hrun] at hr
        exact Except.noConfusion hr
      · rw [hrun] at hr
        obtain ⟨stF, outsF⟩ := pr2
        simp only [Except.ok.injEq, Prod.mk.injEq] at hr
        obtain ⟨h1, h2⟩ := hr
        subst h1
        subst h2
        have ha := mainStep_alerts st inp st1 out hstep
        have hb := ih st1 outsF hrun
        rw [List.countP_cons]
        rcases hc : strContains out "ALERT" <;> simp [hc] at ha ⊢ <;> omega

/-- Witness for claim C1: the amended theorem applied to a one-frame
uneventful run. -/
theorem alerts_level_triggered_witness :
    quietPost.alerts.length =
      (initState 0).alerts.length +
        (["No human detected"] : List String).countP (fun s => strContains s "ALERT") :=
  alerts_level_triggered (initState 0) [quietInput] quietPost ["No human detected"] (by decide)

set_option maxRecDepth 40000 in
/-- Claim C1 counterexample: a 31-frame run from the initial state whose
single unbroken ALERT episode spans frames 30 and 31 (frames 1-29 report
the NO_SUBJECT status) appends two alert rows, not the exactly one the
claim requires. -/
theorem alert_per_frame_cex :
    mainRun (initState 0) doubleAlertInputs =
      Except.ok ({ last_motion_time := 0, frame_count := 31, human_present := true,
                   alerts := [{ alert_type := "DROWNING_ALERT",
                                status := "ALERT: Potential drowning - No motion detected",
                                time_without_motion := 20 },
                              { alert_type := "DROWNING_ALERT",
                                status := "ALERT: Potential drowning - No motion detected",
                                time_without_motion := 21 }],
                   detector_calls := 1 },
        List.replicate 29 "No human detected" ++
          ["ALERT: Potential drowning - No motion detected",
           "ALERT: Potential drowning - No motion detected"]) := by
  decide

/-- One loop iteration increments the frame counter by one and invokes
the person detector exactly when the incremented counter is a multiple of
30. -/
theorem mainStep_counters (st : LoopState) (inp : FrameInput) (st2 : LoopState) (out : String)
    (h : mainStep st inp = Except.ok (st2, out)) :
    st2.frame_count = st.frame_count + 1 ∧
      st2.detector_calls =
        st.detector_calls + (if (st.frame_count + 1) % 30 = 0 then 1 else 0) := by
  unfold mainStep at h
  rcases hmot : detect_motion inp.frame1 inp.frame2 with em | pr
  · rw [hmot] at h
    exact Except.noConfusion h
  · rw [hmot] at h
    obtain ⟨motion, th⟩ := pr
    rcases hsink : inp.sink with u | es <;> rw [hsink] at h <;>
      simp only [log_alert] at h <;>
        split at h <;> split at h <;> split at h
    all_goals try exact Except.noConfusion h
    all_goals
      (simp only [Except.ok.injEq, Prod.mk.injEq] at h
       obtain ⟨h1, h2⟩ := h
       subst h1
       subst h2
       rename_i hsamp hmo hcond
       constructor
       · rfl
       · simp only [beq_iff_eq] at hsamp
         simp [hsamp])

/-- Over a successful run, the frame counter advances by the run length
and the detector-invocation count advances by the number of multiples of
30 the counter passes. -/
theorem mainRun_counters (L : List FrameInput) (st st2 : LoopState) (outs : List String)
    (h : mainRun st L = Except.ok (st2, outs)) :
    st2.frame_count = st.frame_count + L.length ∧
      st2.detector_calls + st.frame_count / 30 =
        st.detector_calls + (st.frame_count + L.length) / 30 := by
  induction L generalizing st outs with
  | nil =>
    unfold mainRun at h
    simp only [Except.ok.injEq, Prod.mk.injEq] at h
    obtain ⟨h1, h2⟩ := h
    subst h1
    simp
  | cons inp rest ih =>
    unfold mainRun at h
    rcases hstep : mainStep st inp with e1 | pr1 <;> rw [hstep] at h
    · exact Except.noConfusion h
    · obtain ⟨st1, out⟩ := pr1
      have hr : (match mainRun st1 rest with
          | Except.error e => Except.error e
          | Except.ok (stX, outsX) => Except.ok (stX, out :: outsX)) =
            Except.ok (st2, outs) := h
      rcases hrun : mainRun st1 rest with e2 | pr2
      · rw [hrun] at hr
        exact Except.noConfusion hr
      · rw [hrun] at hr
        obtain ⟨stF, outsF⟩ := pr2
        simp only [Except.ok.injEq, Prod.mk.injEq] at hr
        obtain ⟨h1, h2⟩ := hr
        subst h1
        subst h2
        obtain ⟨hc1, hc2⟩ := mainStep_counters st inp st1 out hstep
        obtain ⟨hi1, hi2⟩ := ih st1 outsF hrun
        rw [hc1] at hi1 hi2
        rw [List.length_cons]
        constructor
        · omega
        · by_cases h30 : (st.frame_count + 1) % 30 = 0 <;> simp [h30] at hc2 <;> omega

/-- Claim C4, amended: over a successful run of total_frames frames from
the initial state, the external detector is invoked exactly
floor(total_frames / 30) times, and a single iteration invokes it exactly
when the incremented 1-based frame counter is a multiple of 30 — so the
very first frame never invokes it. -/
theorem detector_call_count (t0 : ℤ) (L : List FrameInput) (st2 : LoopState)
    (outs : List String) (h : mainRun (initState t0) L = Except.ok (st2, outs)) :
    st2.detector_calls = L.length / 30 ∧
      ∀ stA inp stB out, mainStep stA inp = Except.ok (stB, out) →
        stB.detector_calls =
          stA.detector_calls + (if (stA.frame_count + 1) % 30 = 0 then 1 else 0) := by
  constructor
  · have hc := (mainRun_counters L (initState t0) st2 outs h).2
    simpa [initState] using hc
  · exact fun stA inp stB out hstep => (mainStep_counters stA inp stB out hstep).2

/-- Witness for claim C4: the amended theorem applied to a one-frame run,
whose detector-call count is 0 = 1 / 30. -/
theorem detector_call_count_witness :
    quietPost.detector_calls = ([quietInput] : List FrameInput).length / 30 :=
  (detector_call_count 0 [quietInput] quietPost ["No human detected"] (by decide)).1

set_option maxRecDepth 40000 in
/-- Claim C4 counterexample: over a 30-frame run the detector is invoked
once, not the floor(30 / 30) + 1 = 2 times the claim computes, and over a
1-frame run it is invoked zero times, not once — the very first frame
(0-based index 0) does not invoke it. -/
theorem sampling_count_cex :
    mainRun (initState 0) (List.replicate 30 quietInput) =
        Except.ok ({ last_motion_time := 0, frame_count := 30, human_present := false,
                     alerts := [], detector_calls := 1 },
          List.replicate 30 "No human detected") ∧
      (1 : Nat) ≠ 30 / 30 + 1 ∧
      mainRun (initState 0) [quietInput] =
        Except.ok ({ last_motion_time := 0, frame_count := 1, human_present := false,
                     alerts := [], detector_calls := 0 }, ["No human detected"]) ∧
      (0 : Nat) ≠ 1 / 30 + 1 := by
  decide

/-- On a frame whose incremented counter is not a multiple of 30, the
iteration leaves the presence flag untouched, and if no human was stored
the frame reports the NO_SUBJECT status. -/
theorem mainStep_not_sampled (st : LoopState) (inp : FrameInput) (st2 : LoopState) (out : String)
    (h : mainStep st inp = Except.ok (st2, out)) (hns : (st.frame_count + 1) % 30 ≠ 0) :
    st2.human_present = st.human_present ∧ st2.frame_count = st.frame_count + 1 ∧
      (st.human_present = false → out = "No human detected") := by
  unfold mainStep at h
  rcases hmot : detect_motion inp.frame1 inp.frame2 with em | pr
  · rw [hmot] at h
    exact Except.noConfusion h
  · rw [hmot] at h
    obtain ⟨motion, th⟩ := pr
    have hbe : ((st.frame_count + 1) % 30 == 0) = false := by
      simpa using hns
    simp only [hbe, Bool.false_eq_true, if_false] at h
    rcases hsink : inp.sink with u | es <;> rw [hsink] at h <;>
      simp only [log_alert] at h <;>
        split at h <;> split at h
    all_goals try exact Except.noConfusion h
    all_goals
      (simp only [Except.ok.injEq, Prod.mk.injEq] at h
       obtain ⟨h1, h2⟩ := h
       subst h1
       subst h2
       refine ⟨rfl, rfl, fun hp => ?_⟩
       simp [analyze_drowning_risk, hp])

/-- Over a successful run starting with no stored human, every status
printed before the counter can first reach a multiple of 30 is the
NO_SUBJECT status. -/
theorem mainRun_warmup (L : List FrameInput) (st st2 : LoopState) (outs : List String)
    (h : mainRun st L = Except.ok (st2, outs)) (hp : st.human_present = false) :
    ∀ s ∈ outs.take (29 - st.frame_count % 30), s = "No human detected" := by
  induction L generalizing st outs with
  | nil =>
    unfold mainRun at h
    simp only [Except.ok.injEq, Prod.mk.injEq] at h
    obtain ⟨h1, h2⟩ := h
    subst h2
    simp
  | cons inp rest ih =>
    unfold mainRun at h
    rcases hstep : mainStep st inp with e1 | pr1 <;> rw [hstep] at h
    · exact Except.noConfusion h
    · obtain ⟨st1, out⟩ := pr1
      have hr : (match mainRun st1 rest with
          | Except.error e => Except.error e
          | Except.ok (stX, outsX) => Except.ok (stX, out :: outsX)) =
            Except.ok (st2, outs) := h
      rcases hrun : mainRun st1 rest with e2 | pr2
      · rw [hrun] at hr
        exact Except.noConfusion hr
      · rw [hrun] at hr
        obtain ⟨stF, outsF⟩ := pr2
        simp only [Except.ok.injEq, Prod.mk.injEq] at hr
        obtain ⟨h1, h2⟩ := hr
        subst h1
        subst h2
        by_cases h0 : 29 - st.frame_count % 30 = 0
        · simp [h0]
        · have hns : (st.frame_count + 1) % 30 ≠ 0 := by omega
          obtain ⟨hpres, hfc, hout⟩ := mainStep_not_sampled st inp st1 out hstep hns
          have hp1 : st1.human_present = false := hpres.trans hp
          have htn : 29 - st.frame_count % 30 = (29 - st1.frame_count % 30) + 1 := by
            rw [hfc]
            omega
          rw [htn, List.take_succ_cons]
          intro s hs
          rcases List.mem_cons.1 hs with hsa | hsb
          · rw [hsa]
            exact hout hp
          · exact ih st1 outsF hrun hp1 s hsb

/-- Claim C10: human_present is initialized to false at monitor start and
is mutated only on frames whose incremented counter is a multiple of the
30-frame sampling interval; consequently every one of the first 29
reported statuses of a successful run is the NO_SUBJECT status, whatever
the frames contain. -/
theorem presence_warmup :
    (∀ t0, (initState t0).human_present = false) ∧
      (∀ st inp st2 out, mainStep st inp = Except.ok (st2, out) →
        (st.frame_count + 1) % 30 ≠ 0 → st2.human_present = st.human_present) ∧
      (∀ t0 L st2 outs, mainRun (initState t0) L = Except.ok (st2, outs) →
        ∀ s ∈ outs.take 29, s = "No human detected") := by
  refine ⟨fun t0 => rfl, ?_, ?_⟩
  · exact fun st inp st2 out h hns => (mainStep_not_sampled st inp st2 out h hns).1
  · intro t0 L st2 outs h s hs
    exact mainRun_warmup L (initState t0) st2 outs h rfl s hs

/-- Witness for claim C10: the initial state stores no human, and the
theorem applied to a one-frame run reports the NO_SUBJECT status. -/
theorem presence_warmup_witness :
    (initState 0).human_present = false ∧ "No human detected" = "No human detected" :=
  ⟨presence_warmup.1 0,
    presence_warmup.2.2 0 [quietInput] quietPost ["No human detected"] (by decide)
      "No human detected" (by decide)⟩

/-- Witness for claim C3: the amended theorem applied at elapsed time 11,
one past the threshold, yields the ALERT status. -/
theorem alert_iff_strictly_late_witness :
    analyze_drowning_risk true false 11 = "ALERT: Potential drowning - No motion detected" :=
  (alert_iff_strictly_late 11).2 (by decide)
